import Mathlib

/-!
Shallow embedding of the PNG decoder in src/png.js.

Byte buffers (JS ArrayBuffer / Uint8Array contents) are `List Nat` with
values in [0,256).  JS numbers produced by the decoder's arithmetic are
`Int` (the `<<` operator works on signed 32-bit integers, so `number`
can return negative values).  Fallible JS code (`throw`, failed asserts,
out-of-range typed-array views) is `Except DecodeErr`.

The `assert(x).message(m).equal(y)` / `.greater(y)` helper lives in
src/assert.js, which is not part of the corpus; it is modelled from the
spec as the "fail loudly with a reason" primitive: the computation stops
with an error exactly when the asserted comparison fails.  Each failure
site is tagged with a dedicated `DecodeErr` constructor named after the
spec's error kind for that check (or after the thrown message).
-/

/-- Error outcomes of the decoder.  Each constructor corresponds to one
`throw` site or failing assert in src/png.js, plus the JS-level errors
`referenceError` (unbound identifier) and `rangeError` (typed-array view
outside the buffer). -/
inductive DecodeErr where
  /-- one of the eight signature byte asserts failed (decode lines 79-86) -/
  | signatureMismatch
  /-- assert(length).equal(13) failed (decodeIHDR line 138) -/
  | badIHDRLength
  /-- an assert with message Expected IHDR header failed (lines 139-142) -/
  | expectedIHDRHeader
  /-- throw in decodeColorType (line 255) -/
  | unsupportedColorType
  /-- evaluating the template string at line 149 dereferences the unbound
      identifier colorType (only colorCode and decode.colorType exist) -/
  | referenceError
  /-- assert(length % 3).equal(0) failed (decodePLTE line 174) -/
  | malformedPalette
  /-- an assert with message Expected PLTE header failed (lines 175-178) -/
  | expectedPLTEHeader
  /-- an assert with message Expected IDAT header failed (lines 203-206) -/
  | expectedIDATHeader
  /-- throw Found multiple PLTE chunks (decode line 94) -/
  | multiplePLTE
  /-- throw No IDAT chunk found (decode line 102) -/
  | noIDAT
  /-- assert(i-4).greater(0) failed (getChunkIndex line 275) -/
  | malformedChunkLayout
  /-- pako.inflate threw or returned nothing (decodeIDAT lines 208-214) -/
  | corruptStream
  /-- a Uint8Array view exceeded the underlying buffer -/
  | rangeError
deriving DecidableEq

deriving instance DecidableEq for Except

/-- JS `a << b` for a non-negative left operand: the operands are taken
mod 2^32, the shift count mod 32, and the 32-bit result is reinterpreted
as a signed Int32. -/
def jsShl (a : Nat) (b : Nat) : Int :=
  let r : Nat := (a % 4294967296) * Nat.pow 2 (b % 32) % 4294967296
  if r < 2147483648 then (r : Int) else (r : Int) - 4294967296

/-- `number(bytes)` from src/png.js lines 288-295: big-endian
accumulation `result += bytes[i] << ((len-(i+1))*8)`.  Because JS `<<`
is signed 32-bit, a 4-byte input with top bit set comes out negative. -/
def number (bytes : List Nat) : Int :=
  (List.range bytes.length).foldl
    (fun result i => result + jsShl (bytes.getD i 0) ((bytes.length - (i + 1)) * 8)) 0

/-- JS `TypedArray.prototype.slice(a, b)`: negative indices count from
the end, indices are clamped to the array length. -/
def jsSliceI (l : List Nat) (a b : Int) : List Nat :=
  let n : Int := l.length
  let ra := if a < 0 then max (n + a) 0 else min a n
  let rb := if b < 0 then max (n + b) 0 else min b n
  (l.drop ra.toNat).take (rb - ra).toNat

/-- JS `%`: remainder truncated toward zero (sign of the dividend). -/
def jsRem (a b : Int) : Int := Int.tmod a b

/-- JS `new Uint8Array(buffer, off, len)`: a view of `len` bytes at
offset `off`; RangeError when it does not fit in the buffer. -/
def uint8Array (buffer : List Nat) (off len : Nat) : Except DecodeErr (List Nat) :=
  if off + len ≤ buffer.length then .ok ((buffer.drop off).take len) else .error .rangeError

/-- One entry of the COLOR_TYPE table (src/png.js lines 30-66). -/
structure ColorType where
  name : String
  code : Int
  channels : Int
  allowed_bit_depths : List Int
deriving DecidableEq

def COLOR_TYPE_GRAYSCALE : ColorType :=
  { name := "Grayscale", code := 0, channels := 1, allowed_bit_depths := [1, 2, 4, 8, 16] }

def COLOR_TYPE_RGB : ColorType :=
  { name := "RGB", code := 2, channels := 3, allowed_bit_depths := [8, 16] }

def COLOR_TYPE_PALETTE : ColorType :=
  { name := "Palette", code := 3, channels := 1, allowed_bit_depths := [1, 2, 4, 8] }

def COLOR_TYPE_ALPHA_GRAYSCALE : ColorType :=
  { name := "Grayscale with alpha channel", code := 4, channels := 2,
    allowed_bit_depths := [8, 16] }

/-- The source really names this entry "Grayscale with alpha channel"
too (copy-paste in src/png.js line 60). -/
def COLOR_TYPE_ALPHA_RGB : ColorType :=
  { name := "Grayscale with alpha channel", code := 6, channels := 4,
    allowed_bit_depths := [8, 16] }

/-- `Object.keys(COLOR_TYPE)` in insertion order (lines 30-66). -/
def colorTypeTable : List ColorType :=
  [COLOR_TYPE_GRAYSCALE, COLOR_TYPE_RGB, COLOR_TYPE_PALETTE,
   COLOR_TYPE_ALPHA_GRAYSCALE, COLOR_TYPE_ALPHA_RGB]

/-- `decodeColorType` (lines 253-257): first table entry whose `code`
equals the argument, otherwise the throw at line 255. -/
def decodeColorType (code : Int) : Except DecodeErr ColorType :=
  match colorTypeTable.find? (fun t => t.code == code) with
  | some t => .ok t
  | none => .error .unsupportedColorType

/-- The first eight bytes equal the PNG magic, as asserted byte by byte
in decode lines 79-86. -/
def sigOk (l : List Nat) : Prop :=
  l.getD 0 0 = 137 ∧ l.getD 1 0 = 80 ∧ l.getD 2 0 = 78 ∧ l.getD 3 0 = 71 ∧
  l.getD 4 0 = 13 ∧ l.getD 5 0 = 10 ∧ l.getD 6 0 = 26 ∧ l.getD 7 0 = 10

instance (l : List Nat) : Decidable (sigOk l) := by unfold sigOk; infer_instance

/-- The eight signature asserts of decode lines 79-86 (run on an 8-byte
view, so `getD` indexing is exact).  Each assert "fails loudly"; the
spec names this failure `SignatureMismatch`. -/
def checkSignature (header : List Nat) : Except DecodeErr Unit :=
  if sigOk header then .ok () else .error .signatureMismatch

/-- The object `decodeIHDR` would populate (fields of `decode` in
src/png.js lines 136-152).  The last three fields are never reached in
the source, see `decodeIHDR`. -/
structure IHDR where
  width : Int
  height : Int
  depth : Int
  colorType : ColorType
  compression : Int
  filter : Int
  interlace : Int
deriving DecidableEq

/-- `decodeIHDR` (lines 121-154).  After `decode.colorType` is resolved,
line 149 builds the assert message, a template string that dereferences
the identifier `colorType`, which is bound nowhere in scope (only
`colorCode` and `decode.colorType` exist); evaluating the call argument
therefore raises a ReferenceError before `.equal(true)` can run, on
every path that reaches line 149.  Lines 150-153 are dead code. -/
def decodeIHDR (chunk : List Nat) : Except DecodeErr IHDR :=
  let length := number (jsSliceI chunk 0 4)
  if length = 13 then
    if chunk.getD 4 256 = 73 then
      if chunk.getD 5 256 = 72 then
        if chunk.getD 6 256 = 68 then
          if chunk.getD 7 256 = 82 then
            let _width := number (jsSliceI chunk 8 12)
            let _height := number (jsSliceI chunk 12 16)
            let depth := number (jsSliceI chunk 16 17)
            let colorCode := number (jsSliceI chunk 17 18)
            match decodeColorType colorCode with
            | .error e => .error e
            | .ok colorType =>
              let _validDepth := colorType.allowed_bit_depths.contains depth
              .error .referenceError
          else .error .expectedIHDRHeader
        else .error .expectedIHDRHeader
      else .error .expectedIHDRHeader
    else .error .expectedIHDRHeader
  else .error .badIHDRLength

/-- The push loop of decodePLTE lines 180-182: `data.slice(i, i+3)` for
`i = 0, 3, 6, ...` while `i < data.length`. -/
def plteGroups : List Nat → List (List Nat)
  | [] => []
  | [a] => [[a]]
  | [a, b] => [[a, b]]
  | a :: b :: c :: rest => [a, b, c] :: plteGroups rest

/-- `decodePLTE` (lines 161-184): length-divisibility assert, four type
byte asserts, then grouping of `chunk.slice(8, chunk.length)`. -/
def decodePLTE (chunk : List Nat) : Except DecodeErr (List (List Nat)) :=
  let length := number (jsSliceI chunk 0 4)
  if jsRem length 3 = 0 then
    if chunk.getD 4 256 = 80 then
      if chunk.getD 5 256 = 76 then
        if chunk.getD 6 256 = 84 then
          if chunk.getD 7 256 = 69 then
            .ok (plteGroups (jsSliceI chunk 8 chunk.length))
          else .error .expectedPLTEHeader
        else .error .expectedPLTEHeader
      else .error .expectedPLTEHeader
    else .error .expectedPLTEHeader
  else .error .malformedPalette

/-- The body of decodeIDAT up to the pako.inflate call (lines 202-209):
recompute the declared length, assert the four IDAT type bytes, and
slice out the payload `chunk.slice(8, length+8)`. -/
def decodeIDATPayload (chunk : List Nat) : Except DecodeErr (List Nat) :=
  let length := number (jsSliceI chunk 0 4)
  if chunk.getD 4 256 = 73 then
    if chunk.getD 5 256 = 68 then
      if chunk.getD 6 256 = 65 then
        if chunk.getD 7 256 = 84 then
          .ok (jsSliceI chunk 8 (length + 8))
        else .error .expectedIDATHeader
      else .error .expectedIDATHeader
    else .error .expectedIDATHeader
  else .error .expectedIDATHeader

/-- `decodeIDAT` (lines 191-216), parameterised by the external
decompression backend `inflate` (pako.inflate); `none` covers both an
inflate exception (rethrown at line 212) and a falsy result (line 214). -/
def decodeIDAT (inflate : List Nat → Option (List Nat)) (chunk : List Nat) :
    Except DecodeErr (List Nat) :=
  match decodeIDATPayload chunk with
  | .error e => .error e
  | .ok payload =>
    match inflate payload with
    | some d => .ok d
    | none => .error .corruptStream

/-- `data[i]==type[0] && data[i+1]==type[1] && data[i+2]==type[2] &&
data[i+3]==type[3]` at line 274; reads past the end are `undefined` and
compare unequal to any byte. -/
def chunkMatchAt (data : List Nat) (c0 c1 c2 c3 : Nat) (i : Nat) : Bool :=
  data[i]? == some c0 && data[i + 1]? == some c1 &&
    data[i + 2]? == some c2 && data[i + 3]? == some c3

/-- The scan loop of getChunkIndex processed for indices `0..bound-1` in
increasing order: on a match at `i`, `assert(i-4).greater(0)` then push
`i-4`. -/
def getChunkIndexAux (data : List Nat) (c0 c1 c2 c3 : Nat) : Nat → Except DecodeErr (List Nat)
  | 0 => .ok []
  | n + 1 =>
    match getChunkIndexAux data c0 c1 c2 c3 n with
    | .error e => .error e
    | .ok findings =>
      if chunkMatchAt data c0 c1 c2 c3 n then
        if 4 < n then .ok (findings ++ [n - 4]) else .error .malformedChunkLayout
      else .ok findings

/-- `getChunkIndex` (lines 266-281): scan EVERY byte position of the
whole buffer for the 4-byte type code. -/
def getChunkIndex (data : List Nat) (c0 c1 c2 c3 : Nat) : Except DecodeErr (List Nat) :=
  getChunkIndexAux data c0 c1 c2 c3 data.length

/-- `Array.prototype.join()` applied to an array of Uint8Arrays (decode
line 109): every element is stringified (its bytes comma-separated) and
the results are comma-separated. -/
def jsJoinBytes (xs : List (List Nat)) : String :=
  String.intercalate "," (xs.map (fun l => String.intercalate "," (l.map (fun b => toString b))))

/-- `decodeScanlines` (lines 224-234): the body computes two unused
locals and falls off the end, returning `undefined` (`none`). -/
def decodeScanlines (raw : String) (ihdr : IHDR) : Option (List (List Int)) :=
  let packLength := ihdr.colorType.channels * ihdr.depth
  let _length := ihdr.width * packLength
  let _raw := raw
  none

/-- The object `decode` returns (lines 76-114).  `rawData` is a String
because line 109 reassigns `img.rawData = img.rawData.join()`. -/
structure Img where
  ihdr : IHDR
  plte : Option (List (List Nat))
  rawData : String
  referenceImage : Option (List (List Int))
deriving DecidableEq

/-- decode lines 92-98: the PLTE section.  At most one index is allowed;
when present, `decodePLTE` gets the view of `plteLength + 8` bytes. -/
def decodePlteSection (buffer : List Nat) (plteIndices : List Nat) :
    Except DecodeErr (Option (List (List Nat))) :=
  if plteIndices.length > 1 then .error .multiplePLTE
  else
    match plteIndices with
    | [] => .ok none
    | idx :: _ =>
      match uint8Array buffer idx 4 with
      | .error e => .error e
      | .ok lenBytes =>
        let plteLength := number lenBytes
        if plteLength + 8 < 0 then .error .rangeError
        else
          match uint8Array buffer idx (plteLength + 8).toNat with
          | .error e => .error e
          | .ok chunk =>
            match decodePLTE chunk with
            | .error e => .error e
            | .ok entries => .ok (some entries)

/-- decode lines 100-108: one `decodeIDAT` call per found index, each on
its own `length + 8` byte view. -/
def decodeIdatSection (inflate : List Nat → Option (List Nat)) (buffer : List Nat)
    (dataIndices : List Nat) : Except DecodeErr (List (List Nat)) :=
  if dataIndices.length = 0 then .error .noIDAT
  else
    dataIndices.mapM (fun x =>
      match uint8Array buffer x 4 with
      | .error e => .error e
      | .ok lenBytes =>
        let length := number lenBytes
        if length + 8 < 0 then .error .rangeError
        else
          match uint8Array buffer x (length + 8).toNat with
          | .error e => .error e
          | .ok chunk => decodeIDAT inflate chunk)

/-- The byte sequences the source passes to pako.inflate, one call per
index that `getChunkIndex` reports for IDAT: the projection of decode
lines 100-108 composed with the pre-inflate part of decodeIDAT. -/
def inflateCallArgs (buffer : List Nat) : Except DecodeErr (List (List Nat)) :=
  match getChunkIndex buffer 73 68 65 84 with
  | .error e => .error e
  | .ok dataIndices =>
    if dataIndices.length = 0 then .error .noIDAT
    else
      dataIndices.mapM (fun x =>
        match uint8Array buffer x 4 with
        | .error e => .error e
        | .ok lenBytes =>
          let length := number lenBytes
          if length + 8 < 0 then .error .rangeError
          else
            match uint8Array buffer x (length + 8).toNat with
            | .error e => .error e
            | .ok chunk => decodeIDATPayload chunk)

/-- `decode` (lines 75-115): signature asserts, IHDR view of bytes
8..28, PLTE section, IDAT section, join, scanline stub. -/
def decode (inflate : List Nat → Option (List Nat)) (buffer : List Nat) :
    Except DecodeErr Img :=
  match uint8Array buffer 0 8 with
  | .error e => .error e
  | .ok header =>
    match checkSignature header with
    | .error e => .error e
    | .ok _ =>
      match uint8Array buffer 8 21 with
      | .error e => .error e
      | .ok ihdrBytes =>
        match decodeIHDR ihdrBytes with
        | .error e => .error e
        | .ok ihdr =>
          match getChunkIndex buffer 80 76 84 69 with
          | .error e => .error e
          | .ok plteIndices =>
            match decodePlteSection buffer plteIndices with
            | .error e => .error e
            | .ok plte =>
              match getChunkIndex buffer 73 68 65 84 with
              | .error e => .error e
              | .ok dataIndices =>
                match decodeIdatSection inflate buffer dataIndices with
                | .error e => .error e
                | .ok rawChunks =>
                  let rawData := jsJoinBytes rawChunks
                  .ok { ihdr := ihdr, plte := plte, rawData := rawData,
                        referenceImage := decodeScanlines rawData ihdr }

/-- The fixed 8-byte PNG magic. -/
def pngMagic : List Nat := [137, 80, 78, 71, 13, 10, 26, 10]

/-- A well-formed IHDR chunk record (length, type, 13 payload bytes,
CRC) declaring a 2 by 2, bit depth 8, Grayscale, non-interlaced image. -/
def ihdrChunk2x2 : List Nat :=
  [0, 0, 0, 13, 73, 72, 68, 82, 0, 0, 0, 2, 0, 0, 0, 2, 8, 0, 0, 0, 0] ++ [0, 0, 0, 0]

/-- The spec's end-to-end scenario stream: signature, the 2 by 2
Grayscale IHDR, one IDAT chunk (whose payload stands for the compressed
scanlines), and IEND. -/
def scenarioPng : List Nat :=
  pngMagic ++ ihdrChunk2x2 ++
    ([0, 0, 0, 6, 73, 68, 65, 84] ++ [1, 2, 3, 5, 8, 13] ++ [0, 0, 0, 0]) ++
    [0, 0, 0, 0, 73, 69, 78, 68, 0, 0, 0, 0]

/-- A stream whose single IDAT chunk (declared length 8, record at
offset 8) carries the byte pattern 73,68,65,84 ("IDAT") as the first
four PAYLOAD bytes (offsets 16-19). -/
def payloadCollisionPng : List Nat :=
  pngMagic ++ [0, 0, 0, 8, 73, 68, 65, 84] ++ [73, 68, 65, 84, 1, 2, 3, 4] ++ [0, 0, 0, 0]

/-- A stream with two IDAT chunk records (offsets 33 and 47), payloads
[10,20] and [30,40]. -/
def twoIdatPng : List Nat :=
  pngMagic ++ ihdrChunk2x2 ++
    [0, 0, 0, 2, 73, 68, 65, 84, 10, 20, 0, 0, 0, 0] ++
    [0, 0, 0, 2, 73, 68, 65, 84, 30, 40, 0, 0, 0, 0]

/-- A stream whose IHDR passes the length and type checks but carries
color-type byte 1, which is not in the COLOR_TYPE table. -/
def colorCode1Png : List Nat :=
  pngMagic ++
    ([0, 0, 0, 13, 73, 72, 68, 82, 0, 0, 0, 1, 0, 0, 0, 1, 8, 1, 0, 0, 0] ++ [0, 0, 0, 0])

/-- An IHDR chunk declaring compression method 1 and interlace method 2
(both outside the legal sets), with otherwise valid fields. -/
def badMethodsIhdrChunk : List Nat :=
  [0, 0, 0, 13, 73, 72, 68, 82, 0, 0, 0, 1, 0, 0, 0, 1, 8, 0, 1, 0, 2]

/-- A stream in which a PLTE chunk record (offset 46) appears after the
IDAT chunk record (offset 33). -/
def plteAfterIdatPng : List Nat :=
  pngMagic ++ ihdrChunk2x2 ++
    [0, 0, 0, 1, 73, 68, 65, 84, 9, 0, 0, 0, 0] ++
    [0, 0, 0, 3, 80, 76, 84, 69, 1, 2, 3, 0, 0, 0, 0]

/-- A PLTE chunk with declared length 3 and payload 9,8,7, sliced the
way decode slices it (length + 8 bytes, no CRC). -/
def plteChunk1 : List Nat := [0, 0, 0, 3, 80, 76, 84, 69, 9, 8, 7]

/-- Every call of `decodeIHDR` ends in an error: each guard either
fails, or control reaches the assert-message template of line 149, whose
evaluation dereferences the unbound identifier `colorType`. -/
theorem decodeIHDR_no_ok (chunk : List Nat) : ∃ e, decodeIHDR chunk = .error e := by
  unfold decodeIHDR
  dsimp only
  repeat' split
  all_goals exact ⟨_, rfl⟩

/-- Hence `decode` ends in an error on every input, whatever the
decompression backend does. -/
theorem decode_no_ok (inflate : List Nat → Option (List Nat)) (buffer : List Nat) :
    ∃ e, decode inflate buffer = .error e := by
  rcases h1 : uint8Array buffer 0 8 with e | header
  · exact ⟨e, by simp [decode, h1]⟩
  rcases h2 : checkSignature header with e | u
  · exact ⟨e, by simp [decode, h1, h2]⟩
  rcases h3 : uint8Array buffer 8 21 with e | ihdrBytes
  · exact ⟨e, by simp [decode, h1, h2, h3]⟩
  obtain ⟨e, he⟩ := decodeIHDR_no_ok ihdrBytes
  exact ⟨e, by simp [decode, h1, h2, h3, he]⟩

/-- A buffer long enough for both leading views, with a valid signature,
propagates any `decodeIHDR` error of its bytes 8..28 out of `decode`. -/
theorem decode_of_ihdr_error (inflate : List Nat → Option (List Nat)) (buffer : List Nat)
    (e : DecodeErr) (hlen : 29 ≤ buffer.length) (hsig : sigOk (buffer.take 8))
    (hihdr : decodeIHDR ((buffer.drop 8).take 21) = .error e) :
    decode inflate buffer = .error e := by
  have h1 : 0 + 8 ≤ buffer.length := by omega
  have h2 : 8 + 21 ≤ buffer.length := by omega
  simp only [decode, uint8Array, if_pos h1, if_pos h2, checkSignature, List.drop_zero,
    if_pos hsig, hihdr]

theorem getD_take8 (l : List Nat) (i : Nat) (h : i < 8) :
    (l.take 8).getD i 0 = l.getD i 0 := by
  simp [List.getD_eq_getElem?_getD, List.getElem?_take_of_lt h]

theorem sigOk_take8 (l : List Nat) : sigOk (l.take 8) ↔ sigOk l := by
  unfold sigOk
  rw [getD_take8 l 0 (by omega), getD_take8 l 1 (by omega), getD_take8 l 2 (by omega),
    getD_take8 l 3 (by omega), getD_take8 l 4 (by omega), getD_take8 l 5 (by omega),
    getD_take8 l 6 (by omega), getD_take8 l 7 (by omega)]

/-- C1: the spec's end-to-end scenario (2 by 2 Grayscale, bit depth 8,
non-interlaced, filter None rows, raw samples 0,255,128,64) should
decode to raster samples [[0,255],[128,64]]; on the source, decode
instead aborts with a ReferenceError raised inside decodeIHDR (line 149
dereferences the unbound identifier colorType), whatever bytes the
decompression backend would produce, and the scanline reconstructor is
a stub returning undefined. -/
theorem c1_scenario_decode_fails :
    ∀ inflate : List Nat → Option (List Nat),
      decode inflate scenarioPng = .error .referenceError :=
  fun inflate =>
    decode_of_ihdr_error inflate scenarioPng _ (by decide) (by decide) (by decide)

theorem c1_scenario_decode_fails_witness :
    decode (fun _ => none) scenarioPng = .error .referenceError :=
  c1_scenario_decode_fails (fun _ => none)

/-- C2: chunk positions are NOT determined solely by declared lengths:
`getChunkIndex` scans every byte position for the 4-byte type code, so
on a stream whose single IDAT record starts at offset 8 (declared
length 8, hence extent 8..27) with the byte pattern "IDAT" inside its
payload at offset 16, the code reports a phantom second chunk at 12. -/
theorem c2_getChunkIndex_phantom_match :
    getChunkIndex payloadCollisionPng 73 68 65 84 = .ok [8, 12] ∧
    number (jsSliceI payloadCollisionPng 8 12) = 8 := by decide

/-- C3: the source never concatenates IDAT payloads before
decompression: taken on its own, the IDAT section passes each payload
to pako.inflate separately (here two calls, on [10,20] and on [30,40],
rather than one call on [10,20,30,40]); moreover decode as a whole
aborts with ReferenceError inside decodeIHDR before ever invoking the
backend. -/
theorem c3_idat_inflated_separately :
    inflateCallArgs twoIdatPng = .ok [[10, 20], [30, 40]] ∧
    ∀ inflate : List Nat → Option (List Nat),
      decode inflate twoIdatPng = .error .referenceError :=
  ⟨by decide, fun inflate =>
    decode_of_ihdr_error inflate twoIdatPng _ (by decide) (by decide) (by decide)⟩

theorem c3_idat_inflated_separately_witness :
    decode (fun _ => none) twoIdatPng = .error .referenceError :=
  c3_idat_inflated_separately.2 (fun _ => none)

/-- C4 counterexample: a buffer that passes the signature check and the
IHDR length/type asserts but carries color-type byte 1 makes decode
fail with UnsupportedColorType (thrown at png.js line 255, before the
line-149 template is evaluated), not with ReferenceError — so, as
stated, decodeIHDR does not raise a ReferenceError on EVERY such call. -/
theorem c4_counterexample :
    sigOk colorCode1Png ∧
    colorCode1Png.getD 12 256 = 73 ∧ colorCode1Png.getD 13 256 = 72 ∧
    colorCode1Png.getD 14 256 = 68 ∧ colorCode1Png.getD 15 256 = 82 ∧
    decode (fun _ => none) colorCode1Png = .error .unsupportedColorType ∧
    decode (fun _ => none) colorCode1Png ≠ .error .referenceError := by decide

/-- C4 (amended): whenever the IHDR length and type asserts pass AND
the color-type byte resolves in the COLOR_TYPE table, decodeIHDR
evaluates the invalid-bit-depth assertion message, whose template
dereferences the unbound identifier colorType, and raises a
ReferenceError before the bit-depth comparison; and decode never
returns successfully for any input buffer at all. -/
theorem c4_amended_referenceError :
    (∀ chunk : List Nat,
        number (jsSliceI chunk 0 4) = 13 →
        chunk.getD 4 256 = 73 → chunk.getD 5 256 = 72 →
        chunk.getD 6 256 = 68 → chunk.getD 7 256 = 82 →
        (∃ ct, decodeColorType (number (jsSliceI chunk 17 18)) = .ok ct) →
        decodeIHDR chunk = .error .referenceError) ∧
    ∀ (inflate : List Nat → Option (List Nat)) (buffer : List Nat),
      ∃ e, decode inflate buffer = .error e := by
  constructor
  · intro chunk hlen h4 h5 h6 h7 hct
    obtain ⟨ct, hct⟩ := hct
    unfold decodeIHDR
    dsimp only
    rw [if_pos hlen, if_pos h4, if_pos h5, if_pos h6, if_pos h7, hct]
  · exact decode_no_ok

theorem c4_amended_referenceError_witness :
    decodeIHDR ihdrChunk2x2 = .error .referenceError :=
  c4_amended_referenceError.1 ihdrChunk2x2 (by decide) (by decide) (by decide) (by decide)
    (by decide) ⟨COLOR_TYPE_GRAYSCALE, by decide⟩

/-- C5: the header validations the claim requires never happen: on an
IHDR chunk whose compression-method byte is 1 and interlace-method byte
is 2 (both outside the legal sets), decodeIHDR fails with the
ReferenceError of line 149 — not with UnsupportedCompressionMethod or
UnsupportedInterlaceMethod, which the source never checks (lines
150-152 are unreachable and contain no validation). -/
theorem c5_ihdr_validation_never_runs :
    number (jsSliceI badMethodsIhdrChunk 18 19) = 1 ∧
    number (jsSliceI badMethodsIhdrChunk 20 21) = 2 ∧
    decodeIHDR badMethodsIhdrChunk = .error .referenceError := by decide

/-- C6: on a stream whose PLTE record (offset 46) follows the IDAT
record (offset 33), the chunk finder happily reports both chunks with
no ordering check, and decode fails with the decodeIHDR ReferenceError
— the source has no MalformedChunkOrder error at all. -/
theorem c6_no_chunk_order_check :
    ∀ inflate : List Nat → Option (List Nat),
      getChunkIndex plteAfterIdatPng 73 68 65 84 = .ok [33] ∧
      getChunkIndex plteAfterIdatPng 80 76 84 69 = .ok [46] ∧
      decode inflate plteAfterIdatPng = .error .referenceError :=
  fun inflate =>
    ⟨by decide, by decide,
      decode_of_ihdr_error inflate plteAfterIdatPng _ (by decide) (by decide) (by decide)⟩

theorem c6_no_chunk_order_check_witness :
    getChunkIndex plteAfterIdatPng 73 68 65 84 = .ok [33] ∧
    getChunkIndex plteAfterIdatPng 80 76 84 69 = .ok [46] ∧
    decode (fun _ => none) plteAfterIdatPng = .error .referenceError :=
  c6_no_chunk_order_check (fun _ => none)

/-- C7: any buffer of at least 8 bytes whose first 8 bytes differ
anywhere from the fixed PNG magic makes decode fail with
SignatureMismatch, for every decompression backend — the failure is
raised by the byte asserts of lines 79-86 before any chunk is read. -/
theorem c7_signature_mismatch (inflate : List Nat → Option (List Nat)) (buffer : List Nat)
    (h8 : 8 ≤ buffer.length) (hbad : ¬ sigOk buffer) :
    decode inflate buffer = .error .signatureMismatch := by
  have h1 : 0 + 8 ≤ buffer.length := by omega
  have hbad8 : ¬ sigOk (buffer.take 8) := fun h => hbad ((sigOk_take8 buffer).mp h)
  simp only [decode, uint8Array, if_pos h1, checkSignature, List.drop_zero, if_neg hbad8]

theorem c7_signature_mismatch_witness :
    decode (fun _ => none) [0, 0, 0, 0, 0, 0, 0, 0] = .error .signatureMismatch :=
  c7_signature_mismatch (fun _ => none) [0, 0, 0, 0, 0, 0, 0, 0] (by decide) (by decide)

/-- C8: the byte-to-integer conversion is NOT the unsigned big-endian
value: JS `<<` works on signed 32-bit integers, so a 4-byte input with
top bit set comes out negative — number([128,0,0,0]) is -2^31, not
2^31, contradicting the function's own doc comment ("Return the
unsigned int") and the claimed range [0, 2^32). -/
theorem c8_number_signed_overflow :
    number [128, 0, 0, 0] = -2147483648 ∧ number [128, 0, 0, 0] < 0 := by decide

theorem plteGroups_length : ∀ data : List Nat, (plteGroups data).length = (data.length + 2) / 3
  | [] => by simp [plteGroups]
  | [_] => by simp [plteGroups]
  | [_, _] => by simp [plteGroups]
  | _ :: _ :: _ :: rest => by
    have ih := plteGroups_length rest
    simp only [plteGroups, List.length_cons, ih]
    omega

theorem plteGroups_get : ∀ (data : List Nat) (i : Nat), i < (plteGroups data).length →
    (plteGroups data)[i]? = some ((data.drop (3 * i)).take 3)
  | [], i, h => by simp [plteGroups] at h
  | [_], 0, _ => by simp [plteGroups]
  | [_], _ + 1, h => by simp [plteGroups] at h
  | [_, _], 0, _ => by simp [plteGroups]
  | [_, _], _ + 1, h => by simp [plteGroups] at h
  | _ :: _ :: _ :: _, 0, _ => by simp [plteGroups]
  | a :: b :: c :: rest, i + 1, h => by
    have hlt : i < (plteGroups rest).length := by simpa [plteGroups] using h
    have e : (a :: b :: c :: rest).drop (3 * (i + 1)) = rest.drop (3 * i) := by
      rw [Nat.mul_succ, Nat.add_comm (3 * i) 3, ← List.drop_drop]
      rfl
    rw [e]
    simpa [plteGroups] using plteGroups_get rest i hlt

theorem drop_take_three (l : List Nat) (n : Nat) (h : n + 2 < l.length) :
    (l.drop n).take 3 = [l.getD n 0, l.getD (n + 1) 0, l.getD (n + 2) 0] := by
  apply List.ext_getElem?
  intro i
  match i with
  | 0 =>
    have hb : n < l.length := by omega
    rw [List.getElem?_take_of_lt (by omega : (0 : Nat) < 3), List.getElem?_drop, Nat.add_zero]
    simp [List.getD_eq_getElem?_getD, List.getElem?_eq_getElem hb]
  | 1 =>
    have hb : n + 1 < l.length := by omega
    rw [List.getElem?_take_of_lt (by omega : (1 : Nat) < 3), List.getElem?_drop]
    simp [List.getD_eq_getElem?_getD, List.getElem?_eq_getElem hb]
  | 2 =>
    have hb : n + 2 < l.length := by omega
    rw [List.getElem?_take_of_lt (by omega : (2 : Nat) < 3), List.getElem?_drop]
    simp [List.getD_eq_getElem?_getD, List.getElem?_eq_getElem hb]
  | i + 3 =>
    rw [List.getElem?_eq_none
        (show ((l.drop n).take 3).length ≤ i + 3 by
          simp only [List.length_take, List.length_drop]; omega),
      List.getElem?_eq_none
        (show ([l.getD n 0, l.getD (n + 1) 0, l.getD (n + 2) 0] : List Nat).length ≤ i + 3 by
          simp only [List.length_cons, List.length_nil]; omega)]

theorem jsSliceI_eight (l : List Nat) (h : 8 ≤ l.length) :
    jsSliceI l 8 (l.length : Int) = l.drop 8 := by
  unfold jsSliceI
  dsimp only
  have ha : ¬ ((8 : Int) < 0) := by omega
  have hn : ¬ ((l.length : Int) < 0) := by omega
  rw [if_neg ha, if_neg hn, min_self, min_eq_left (by exact_mod_cast h)]
  have e1 : ((8 : Int)).toNat = 8 := by omega
  have e2 : ((l.length : Int) - 8).toNat = l.length - 8 := by omega
  rw [e1, e2]
  exact List.take_of_length_le (by simp)

theorem jsRem_natCast (m k : Nat) : jsRem (m : Int) (k : Int) = ((m % k : Nat) : Int) := by
  unfold jsRem
  exact (Int.ofNat_tmod m k).symm

/-- C9: on a PLTE chunk sliced the way decode slices it (declared
length + 8 bytes, type bytes "PLTE"), decodePLTE fails with
MalformedPalette exactly when the declared length is not a multiple of
3; otherwise it returns length/3 entries, entry i being the payload
bytes at offsets 3i, 3i+1, 3i+2 in file order. -/
theorem c9_decodePLTE_spec (chunk : List Nat)
    (h4 : chunk.getD 4 256 = 80) (h5 : chunk.getD 5 256 = 76)
    (h6 : chunk.getD 6 256 = 84) (h7 : chunk.getD 7 256 = 69)
    (hsize : (chunk.length : Int) = number (jsSliceI chunk 0 4) + 8) :
    (jsRem (number (jsSliceI chunk 0 4)) 3 ≠ 0 →
      decodePLTE chunk = .error .malformedPalette) ∧
    (jsRem (number (jsSliceI chunk 0 4)) 3 = 0 →
      ∃ entries, decodePLTE chunk = .ok entries ∧
        (entries.length : Int) = number (jsSliceI chunk 0 4) / 3 ∧
        ∀ i, i < entries.length →
          entries[i]? = some [(chunk.drop 8).getD (3 * i) 0,
            (chunk.drop 8).getD (3 * i + 1) 0, (chunk.drop 8).getD (3 * i + 2) 0]) := by
  constructor
  · intro hne
    unfold decodePLTE
    dsimp only
    rw [if_neg hne]
  · intro h0
    have hlen8 : 8 ≤ chunk.length := by
      by_contra hc
      have h256 : chunk.getD 7 256 = 256 := by
        simp [List.getD_eq_getElem?_getD, List.getElem?_eq_none (by omega : chunk.length ≤ 7)]
      omega
    have hn : number (jsSliceI chunk 0 4) = ((chunk.length - 8 : Nat) : Int) := by omega
    have h3 : (chunk.length - 8) % 3 = 0 := by
      rw [hn, show (3 : Int) = ((3 : Nat) : Int) from rfl, jsRem_natCast] at h0
      exact_mod_cast h0
    have hdl : (chunk.drop 8).length = chunk.length - 8 := by simp
    refine ⟨plteGroups (chunk.drop 8), ?_, ?_, ?_⟩
    · unfold decodePLTE
      dsimp only
      rw [if_pos h0, if_pos h4, if_pos h5, if_pos h6, if_pos h7, jsSliceI_eight chunk hlen8]
    · rw [hn, plteGroups_length, hdl]
      omega
    · intro i hi
      rw [plteGroups_get (chunk.drop 8) i hi]
      have hbound : 3 * i + 2 < (chunk.drop 8).length := by
        rw [plteGroups_length, hdl] at hi
        omega
      rw [drop_take_three (chunk.drop 8) (3 * i) hbound]

theorem c9_decodePLTE_spec_witness :
    jsRem (number (jsSliceI plteChunk1 0 4)) 3 = 0 ∧ decodePLTE plteChunk1 = .ok [[9, 8, 7]] := by
  have h := (c9_decodePLTE_spec plteChunk1 (by decide) (by decide) (by decide) (by decide)
    (by decide)).2 (by decide)
  obtain ⟨entries, he, _, _⟩ := h
  have hv : decodePLTE plteChunk1 = .ok [[9, 8, 7]] := by decide
  exact ⟨by decide, hv⟩

/-- C10: decodeColorType returns the table descriptor for each known
color-type code 0, 2, 3, 4, 6 and fails with UnsupportedColorType for
every other code. -/
theorem c10_decodeColorType_table :
    (∀ code : Int, code ≠ 0 → code ≠ 2 → code ≠ 3 → code ≠ 4 → code ≠ 6 →
      decodeColorType code = .error .unsupportedColorType) ∧
    decodeColorType 0 = .ok COLOR_TYPE_GRAYSCALE ∧
    decodeColorType 2 = .ok COLOR_TYPE_RGB ∧
    decodeColorType 3 = .ok COLOR_TYPE_PALETTE ∧
    decodeColorType 4 = .ok COLOR_TYPE_ALPHA_GRAYSCALE ∧
    decodeColorType 6 = .ok COLOR_TYPE_ALPHA_RGB := by
  refine ⟨?_, by decide, by decide, by decide, by decide, by decide⟩
  intro code h0 h2 h3 h4 h6
  have e0 : (COLOR_TYPE_GRAYSCALE.code == code) = false := by
    simp [COLOR_TYPE_GRAYSCALE]; omega
  have e2 : (COLOR_TYPE_RGB.code == code) = false := by
    simp [COLOR_TYPE_RGB]; omega
  have e3 : (COLOR_TYPE_PALETTE.code == code) = false := by
    simp [COLOR_TYPE_PALETTE]; omega
  have e4 : (COLOR_TYPE_ALPHA_GRAYSCALE.code == code) = false := by
    simp [COLOR_TYPE_ALPHA_GRAYSCALE]; omega
  have e6 : (COLOR_TYPE_ALPHA_RGB.code == code) = false := by
    simp [COLOR_TYPE_ALPHA_RGB]; omega
  simp [decodeColorType, colorTypeTable, List.find?_cons, e0, e2, e3, e4, e6]

theorem c10_decodeColorType_table_witness :
    decodeColorType 1 = .error .unsupportedColorType :=
  c10_decodeColorType_table.1 1 (by decide) (by decide) (by decide) (by decide) (by decide)

